import Mathlib

/-!
Verification development for the opus binding (src/discord/opus.py) and the
command invocation context (src/discord/ext/commands/context.py).

The Python modules are shallowly embedded: the native libopus library is
modelled as an oracle structure of pure functions, and every operation that
touches native state additionally returns the list of native calls it issued,
so that claims about which native calls happen (and with which arguments)
become provable statements.  Machine integers are modelled as Nat / Int with
exact arithmetic; the one float computation in the source
(int(sampling_rate / 1000 * frame_length)) is modelled by exact rational
arithmetic truncated to an integer, which agrees with CPython double
arithmetic on all sampling rates for which the double computation is exact
(in particular every multiple of 1000, which covers all opus-valid rates).
-/

namespace Discord

/-- A dynamic Python value, as stored in Context attributes.  Objects such as
messages, bots and commands are opaque references identified by a number. -/
inductive PyVal where
  | none
  | int (n : Int)
  | str (s : String)
  | list (xs : List PyVal)
  | dict (xs : List (String × PyVal))
  | obj (id : Nat)
deriving Repr

/-- The exceptions raised by the embedded code.  `opusError` models
OpusError(code) whose message is resolved through the native strerror at
construction time; `opusNotLoaded` models OpusNotLoaded; `keyError` models
the KeyError of dict.pop on a missing key; `attributeError` models attribute
access on an object that never received the attribute. -/
inductive PyExn where
  | opusError (code : Int) (msg : String)
  | opusNotLoaded
  | keyError (key : String)
  | attributeError
deriving Repr, DecidableEq

/-- The exceptions a library load can raise: the OSError of
ctypes.cdll.LoadLibrary when the library cannot be opened (carrying the
library name and a reason), and the AttributeError of getattr when a
required symbol is missing (re-raised by libopus_loader). -/
inductive LoadExn where
  | osError (libname : String) (reason : String)
  | attributeError (symbol : String)
deriving Repr, DecidableEq

/-- ctypes argument/result types appearing in the exported function table. -/
inductive CType where
  | c_int
  | c_int32
  | c_char_p
  | c_int_ptr
  | c_int16_ptr
  | c_float_ptr
  | encoderStructPtr
deriving Repr, DecidableEq

/-- The exported function table of opus.py (name, argument types, result
type; result Option.none models a restype of None). -/
def exported_functions : List (String × List CType × Option CType) :=
  [("opus_strerror", [CType.c_int], some CType.c_char_p),
   ("opus_encoder_get_size", [CType.c_int], some CType.c_int),
   ("opus_encoder_create",
      [CType.c_int, CType.c_int, CType.c_int, CType.c_int_ptr],
      some CType.encoderStructPtr),
   ("opus_encode",
      [CType.encoderStructPtr, CType.c_int16_ptr, CType.c_int,
       CType.c_char_p, CType.c_int32],
      some CType.c_int32),
   ("opus_encoder_destroy", [CType.encoderStructPtr], Option.none)]

/-- A native call issued through the binding, with the arguments the Python
code passes (pointers are modelled as Option Nat, Option.none being NULL;
for opus_encode only the scalar arguments are recorded: the handle, the
frame size and the max_data_bytes capacity of the output buffer). -/
inductive NativeCall where
  | strerror (code : Int)
  | encoderCreate (sampling channels application : Nat)
  | encode (handle : Option Nat) (frameSize : Nat) (maxDataBytes : Nat)
  | encoderDestroy (handle : Option Nat)
deriving Repr, DecidableEq

/-- The behaviour of a loaded native library, as an oracle:
`hasSymbol` tells which symbols getattr finds; `opus_strerror` maps a status
code to its message; `opus_encoder_create` returns the byref error code and
the (possibly NULL) encoder pointer; `opus_encode` receives the PCM bytes,
the frame size and the output capacity and returns the status (encoded byte
count, or negative error) together with the byte string it wrote into the
output buffer. -/
structure NativeLib where
  hasSymbol : String → Bool
  opus_strerror : Int → String
  opus_encoder_create : Nat → Nat → Nat → Int × Option Nat
  opus_encode : Option Nat → List Nat → Nat → Nat → Int × List Nat

/-- The process-wide _lib global: Option.none when no binding is present. -/
def is_loaded (lib : Option NativeLib) : Bool :=
  lib.isSome

/-- libopus_loader(name): open the library through the dlopen oracle, then
getattr each exported function in order, re-raising on the first missing
symbol (registering argtypes/restype has no observable effect in the model).
-/
def libopus_loader (dlopen : String → Except LoadExn NativeLib)
    (name : String) : Except LoadExn NativeLib :=
  match dlopen name with
  | Except.error e => Except.error e
  | Except.ok lib =>
    match exported_functions.find? (fun item => ! lib.hasSymbol item.1) with
    | some item => Except.error (LoadExn.attributeError item.1)
    | Option.none => Except.ok lib

/-- load_opus(name): global _lib; _lib = libopus_loader(name).  Returns the
outcome together with the new value of the _lib global; on failure the
assignment never happens, so the global keeps its prior value. -/
def load_opus (dlopen : String → Except LoadExn NativeLib)
    (lib : Option NativeLib) (name : String) :
    Except LoadExn Unit × Option NativeLib :=
  match libopus_loader dlopen name with
  | Except.error e => (Except.error e, lib)
  | Except.ok newLib => (Except.ok (), some newLib)

-- Constants from opus.py.
def OK : Nat := 0
def APPLICATION_AUDIO : Nat := 2049
def APPLICATION_VOIP : Nat := 2048
def APPLICATION_LOWDELAY : Nat := 2051

/-- The Encoder object.  `_state` is Option.none while the _state attribute
was never assigned (construction raised before reaching _create_state), and
some h once assigned, where h is the Python value: some pointer, or
Option.none for Python None (assigned by __del__, and also what a NULL
pointer from the native create marshals to). -/
structure Encoder where
  sampling_rate : Nat
  channels : Nat
  application : Nat
  frame_length : Nat
  sample_size : Nat
  samples_per_frame : Nat
  frame_size : Nat
  _state : Option (Option Nat)
deriving Repr, DecidableEq

namespace Encoder

/-- Encoder.__init__(sampling, channels, application): stores the
configuration, derives the frame geometry, checks is_loaded() (raising
OpusNotLoaded before any native call when the binding is absent), then runs
_create_state: the native opus_encoder_create, raising OpusError on a
nonzero byref error code.  Returns the constructed object or the exception,
together with the native calls issued. -/
def init (lib : Option NativeLib) (sampling channels application : Nat) :
    Except PyExn Encoder × List NativeCall :=
  let frame_length := 20
  let sample_size := 2 * channels
  let samples_per_frame := sampling * frame_length / 1000
  let frame_size := samples_per_frame * sample_size
  match lib with
  | Option.none =>
    -- if not is_loaded(): raise OpusNotLoaded()
    (Except.error PyExn.opusNotLoaded, [])
  | some nl =>
    let created := nl.opus_encoder_create sampling channels application
    if created.1 ≠ 0 then
      -- OpusError.__init__ resolves the message via the native strerror.
      (Except.error (PyExn.opusError created.1 (nl.opus_strerror created.1)),
       [NativeCall.encoderCreate sampling channels application,
        NativeCall.strerror created.1])
    else
      (Except.ok
        { sampling_rate := sampling
          channels := channels
          application := application
          frame_length := frame_length
          sample_size := sample_size
          samples_per_frame := samples_per_frame
          frame_size := frame_size
          _state := some created.2 },
       [NativeCall.encoderCreate sampling channels application])

/-- Encoder.__init__ with the application argument left to its default. -/
def initDefault (lib : Option NativeLib) (sampling channels : Nat) :
    Except PyExn Encoder × List NativeCall :=
  init lib sampling channels APPLICATION_AUDIO

/-- Encoder.__del__: if hasattr(self, "_state") the native destroy is called
on the current _state value and _state is set to None; when the attribute
was never assigned, nothing happens.  Returns the updated object and the
native calls issued. -/
def del (e : Encoder) : Encoder × List NativeCall :=
  match e._state with
  | Option.none => (e, [])
  | some h => ({ e with _state := some Option.none },
               [NativeCall.encoderDestroy h])

/-- Encoder.encode(pcm, frame_size): max_data_bytes = len(pcm); an output
buffer of exactly max_data_bytes zero-initialised bytes is allocated and the
native opus_encode fills it (the model truncates what the oracle wrote to
the buffer capacity and keeps the zero fill beyond it); a negative status
raises OpusError, otherwise the first status-many bytes of the buffer are
returned.  The triple carries the outcome, the object after the call (the
method assigns no attribute) and the native calls issued. -/
def encode (nl : NativeLib) (e : Encoder) (pcm : List Nat) (frame_size : Nat) :
    Except PyExn (List Nat) × Encoder × List NativeCall :=
  match e._state with
  | Option.none => (Except.error PyExn.attributeError, e, [])
  | some h =>
    let max_data_bytes := pcm.length
    let result := nl.opus_encode h pcm frame_size max_data_bytes
    let data := result.2.take max_data_bytes ++
      List.replicate (max_data_bytes - result.2.length) 0
    if result.1 < 0 then
      (Except.error (PyExn.opusError result.1 (nl.opus_strerror result.1)), e,
       [NativeCall.encode h frame_size max_data_bytes,
        NativeCall.strerror result.1])
    else
      (Except.ok (data.take result.1.toNat), e,
       [NativeCall.encode h frame_size max_data_bytes])

end Encoder

/-- The command invocation context.  The field `pfx` embeds the Python
attribute named "prefix" (that word is reserved in Lean). -/
structure Context where
  message : PyVal
  bot : PyVal
  args : PyVal
  kwargs : PyVal
  pfx : PyVal
  command : PyVal
  view : PyVal
  invoked_with : PyVal
  invoked_subcommand : PyVal
  subcommand_passed : PyVal
deriving Repr

/-- The attribute keys Context.__init__ pops from its keyword arguments. -/
def contextKnownKeys : List String :=
  ["message", "bot", "args", "kwargs", "prefix", "command", "view",
   "invoked_with", "invoked_subcommand", "subcommand_passed"]

namespace Context

/-- Context.__init__(**attrs): each documented attribute is popped with a
default (None, [], or \x7b\x7d), except "prefix" which is popped without a
default and therefore raises KeyError when absent; keys that are popped by
no field are discarded with the attrs dict. -/
def init (attrs : List (String × PyVal)) : Except PyExn Context :=
  match attrs.lookup "prefix" with
  | Option.none => Except.error (PyExn.keyError "prefix")
  | some p =>
    Except.ok
      { message := (attrs.lookup "message").getD PyVal.none
        bot := (attrs.lookup "bot").getD PyVal.none
        args := (attrs.lookup "args").getD (PyVal.list [])
        kwargs := (attrs.lookup "kwargs").getD (PyVal.dict [])
        pfx := p
        command := (attrs.lookup "command").getD PyVal.none
        view := (attrs.lookup "view").getD PyVal.none
        invoked_with := (attrs.lookup "invoked_with").getD PyVal.none
        invoked_subcommand :=
          (attrs.lookup "invoked_subcommand").getD PyVal.none
        subcommand_passed :=
          (attrs.lookup "subcommand_passed").getD PyVal.none }

end Context

/-- A command as Context.invoke sees it: a canonical entry point receiving
the context, and a raw callback receiving keyword arguments.  Res is the
type of the invocation outcome. -/
structure Command (Res : Type) where
  invoke : Context → Res
  callback : List (String × PyVal) → Res

/-- Context.invoke(command, **kwargs): with no keyword arguments it runs
command.invoke(self); otherwise it runs command.callback(**kwargs) (the
coroutine delegation is modelled as a plain call). -/
def Context.invoke {Res : Type} (self : Context) (command : Command Res)
    (kwargs : List (String × PyVal)) : Res :=
  if kwargs.length = 0 then command.invoke self
  else command.callback kwargs

/-- A concrete native library used to witness the theorems on concrete
inputs: every symbol resolves, create succeeds with pointer 1, encode
reports 2 bytes written as [7, 8]. -/
def testLib : NativeLib :=
  { hasSymbol := fun _ => true
    opus_strerror := fun _ => "invalid argument"
    opus_encoder_create := fun _ _ _ => (0, some 1)
    opus_encode := fun _ _ _ _ => (2, [7, 8, 9]) }

/-- A concrete native library whose encode always fails with status -1. -/
def failLib : NativeLib :=
  { hasSymbol := fun _ => true
    opus_strerror := fun _ => "invalid argument"
    opus_encoder_create := fun _ _ _ => (0, some 1)
    opus_encode := fun _ _ _ _ => (-1, []) }

/-- A concrete Encoder in the Ready state, as produced by a successful
construction at 48000 Hz stereo with the default application, holding
native pointer 1. -/
def readyEncoder : Encoder :=
  { sampling_rate := 48000, channels := 2, application := 2049
    frame_length := 20, sample_size := 4, samples_per_frame := 960
    frame_size := 3840, _state := some (some 1) }

/-- A concrete Encoder whose construction raised before _create_state, so
the _state attribute was never assigned. -/
def uninitEncoder : Encoder :=
  { readyEncoder with _state := Option.none }

/-- A concrete Encoder after teardown: the _state attribute holds None. -/
def closedEncoder : Encoder :=
  { readyEncoder with _state := some Option.none }

/-- A dlopen oracle on which every library open fails, as for a library
name that does not exist. -/
def failDlopen : String → Except LoadExn NativeLib :=
  fun name => Except.error (LoadExn.osError name "cannot open shared object")

/-- A concrete Context for witnessing the invoke dispatch. -/
def testContext : Context :=
  { message := PyVal.none, bot := PyVal.none, args := PyVal.list []
    kwargs := PyVal.dict [], pfx := PyVal.str "!", command := PyVal.none
    view := PyVal.none, invoked_with := PyVal.none
    invoked_subcommand := PyVal.none, subcommand_passed := PyVal.none }

/-- A concrete command distinguishing its two entry points by result. -/
def testCommand : Command Nat :=
  { invoke := fun _ => 1, callback := fun _ => 2 }

section Theorems

/-- Nat division by 1000 after scaling by 20 is the rational floor of the
source expression sampling_rate / 1000 * frame_length. -/
theorem samples_per_frame_eq_ratFloor (s : Nat) :
    ((s * 20 / 1000 : ℕ) : ℤ) = ⌊(s : ℚ) / 1000 * 20⌋ := by
  have hq : (s : ℚ) / 1000 * 20 = ((s * 20 : ℕ) : ℚ) / ((1000 : ℕ) : ℚ) := by
    push_cast
    ring
  rw [hq, ← Int.natCast_floor_eq_floor (by positivity), Nat.floor_div_eq_div]

/-- Claim C1: for every valid (samplingRate, channelCount) pair, the Encoder
constructor fixes the frame length at 20 ms, sets sampleSizeBytes to
2 * channelCount, samplesPerFrame to floor(samplingRate / 1000 * 20), and
frameSizeBytes to samplesPerFrame * sampleSizeBytes. -/
theorem c1_frame_geometry (lib : Option NativeLib) (s c a : Nat)
    (e : Encoder) (calls : List NativeCall)
    (h : Encoder.init lib s c a = (Except.ok e, calls)) :
    e.frame_length = 20 ∧
    e.sample_size = 2 * c ∧
    (e.samples_per_frame : ℤ) = ⌊(s : ℚ) / 1000 * 20⌋ ∧
    e.frame_size = e.samples_per_frame * e.sample_size ∧
    e.sampling_rate = s ∧ e.channels = c := by
  cases lib with
  | none => simp [Encoder.init] at h
  | some nl =>
    rw [Encoder.init] at h
    split at h
    · simp at h
    · simp only [Prod.mk.injEq, Except.ok.injEq] at h
      obtain ⟨rfl, rfl⟩ := h
      exact ⟨rfl, rfl, samples_per_frame_eq_ratFloor s, rfl, rfl, rfl⟩

/-- Witness for C1 at the example of the claim: samplingRate 48000 and
channelCount 2 give samplesPerFrame 960 and frameSizeBytes 3840. -/
theorem c1_frame_geometry_witness :
    ∃ e calls,
      Encoder.init (some testLib) 48000 2 APPLICATION_AUDIO =
        (Except.ok e, calls) ∧
      e.samples_per_frame = 960 ∧ e.frame_size = 3840 ∧
      (e.samples_per_frame : ℤ) = ⌊(48000 : ℚ) / 1000 * 20⌋ :=
  ⟨_, _, rfl, rfl, rfl,
    (c1_frame_geometry (some testLib) 48000 2 APPLICATION_AUDIO _ _
      rfl).2.2.1⟩

/-- Claim C5: whenever Encoder construction is attempted while is_loaded()
is false, it fails with OpusNotLoaded, with no other error kind and no
native call at all (in particular no opus_encoder_create). -/
theorem c5_construction_not_loaded (lib : Option NativeLib) (s c a : Nat)
    (h : is_loaded lib = false) :
    Encoder.init lib s c a = (Except.error PyExn.opusNotLoaded, []) := by
  cases lib with
  | none => rfl
  | some nl => simp [is_loaded] at h

/-- Witness for C5 on the absent binding. -/
theorem c5_construction_not_loaded_witness :
    is_loaded Option.none = false ∧
    Encoder.init Option.none 48000 2 APPLICATION_AUDIO =
      (Except.error PyExn.opusNotLoaded, []) :=
  ⟨rfl, c5_construction_not_loaded Option.none 48000 2 APPLICATION_AUDIO rfl⟩

/-- Claim C9: the application constants carry the observed native ABI
values, Audio 2049, Voip 2048, LowDelay 2051, and Audio is the default
application profile of Encoder construction (a construction with the
default stores Audio in the application field). -/
theorem c9_application_constants :
    APPLICATION_AUDIO = 2049 ∧ APPLICATION_VOIP = 2048 ∧
    APPLICATION_LOWDELAY = 2051 ∧
    (∀ lib s c, Encoder.initDefault lib s c =
      Encoder.init lib s c APPLICATION_AUDIO) ∧
    (∃ e calls, Encoder.initDefault (some testLib) 48000 2 =
      (Except.ok e, calls) ∧ e.application = 2049) :=
  ⟨rfl, rfl, rfl, fun _ _ _ => rfl, ⟨_, _, rfl, rfl⟩⟩

/-- Claim C2: on a Ready Encoder the capacity handed to the native encode
call is exactly the byte length of the pcm input; a negative native status
raises OpusError carrying that status; otherwise exactly the first
status-many bytes of the output buffer are returned, so the result length
never exceeds the input length. -/
theorem c2_encode_ready (nl : NativeLib) (e : Encoder) (pcm : List Nat)
    (fs : Nat) (h : Option Nat) (hs : e._state = some h) :
    (Encoder.encode nl e pcm fs).2.2.head? =
      some (NativeCall.encode h fs pcm.length) ∧
    ((nl.opus_encode h pcm fs pcm.length).1 < 0 →
      (Encoder.encode nl e pcm fs).1 =
        Except.error
          (PyExn.opusError (nl.opus_encode h pcm fs pcm.length).1
            (nl.opus_strerror (nl.opus_encode h pcm fs pcm.length).1))) ∧
    (0 ≤ (nl.opus_encode h pcm fs pcm.length).1 →
      (Encoder.encode nl e pcm fs).1 =
        Except.ok
          (((nl.opus_encode h pcm fs pcm.length).2.take pcm.length ++
            List.replicate
              (pcm.length - (nl.opus_encode h pcm fs pcm.length).2.length)
              0).take (nl.opus_encode h pcm fs pcm.length).1.toNat)) ∧
    (∀ out, (Encoder.encode nl e pcm fs).1 = Except.ok out →
      out.length ≤ pcm.length) := by
  simp only [Encoder.encode, hs]
  split
  · refine ⟨rfl, fun _ => rfl, fun hge => absurd hge (by omega), ?_⟩
    intro out hout
    simp at hout
  · rename_i hlt
    refine ⟨rfl, fun hneg => absurd hneg hlt, fun _ => rfl, ?_⟩
    intro out hout
    simp only [Except.ok.injEq] at hout
    subst hout
    simp only [List.length_take, List.length_append, List.length_replicate]
    omega

/-- Witness for C2: on the test library a Ready Encoder encoding four pcm
bytes gets capacity 4, succeeds with status 2 and returns the two bytes
[7, 8], a length within the input length. -/
theorem c2_encode_ready_witness :
    (Encoder.encode testLib readyEncoder [0, 0, 0, 0] 960).2.2.head? =
      some (NativeCall.encode (some 1) 960 4) ∧
    (Encoder.encode testLib readyEncoder [0, 0, 0, 0] 960).1 =
      Except.ok [7, 8] ∧
    ∀ out,
      (Encoder.encode testLib readyEncoder [0, 0, 0, 0] 960).1 =
        Except.ok out → out.length ≤ 4 :=
  ⟨(c2_encode_ready testLib readyEncoder [0, 0, 0, 0] 960 (some 1) rfl).1,
   (c2_encode_ready testLib readyEncoder [0, 0, 0, 0] 960 (some 1)
      rfl).2.2.1 (by decide),
   (c2_encode_ready testLib readyEncoder [0, 0, 0, 0] 960 (some 1)
      rfl).2.2.2⟩

/-- Claim C7: an encode call that fails with OpusError leaves the Encoder
object exactly as it was, every field included, so further encode calls see
the same Ready state. -/
theorem c7_encode_failure_preserves_encoder (nl : NativeLib) (e : Encoder)
    (pcm : List Nat) (fs : Nat) (h : Option Nat) (hs : e._state = some h)
    (hneg : (nl.opus_encode h pcm fs pcm.length).1 < 0) :
    (Encoder.encode nl e pcm fs).1 =
      Except.error
        (PyExn.opusError (nl.opus_encode h pcm fs pcm.length).1
          (nl.opus_strerror (nl.opus_encode h pcm fs pcm.length).1)) ∧
    (Encoder.encode nl e pcm fs).2.1 = e := by
  simp only [Encoder.encode, hs]
  split
  · exact ⟨rfl, rfl⟩
  · rename_i hlt
    exact absurd hneg hlt

/-- Witness for C7: on the failing library the error carries status -1 and
the Encoder value is unchanged. -/
theorem c7_encode_failure_preserves_encoder_witness :
    (Encoder.encode failLib readyEncoder [0, 0, 0, 0] 960).1 =
      Except.error (PyExn.opusError (-1) "invalid argument") ∧
    (Encoder.encode failLib readyEncoder [0, 0, 0, 0] 960).2.1 =
      readyEncoder :=
  c7_encode_failure_preserves_encoder failLib readyEncoder [0, 0, 0, 0] 960
    (some 1) rfl (by decide)

/-- Counterexample to claim C3: after a first teardown the _state attribute
still exists (holding None), so a second teardown issues another native
encoderDestroy call, on the cleared handle, instead of performing no native
call. -/
theorem c3_counterexample :
    (Encoder.del (Encoder.del readyEncoder).1).2 =
      [NativeCall.encoderDestroy Option.none] ∧
    (Encoder.del (Encoder.del readyEncoder).1).2 ≠ [] := by
  constructor
  · rfl
  · decide

/-- Claim C3 as amended: teardown on an Encoder whose _state attribute was
never assigned performs no native call and no error; teardown on an Encoder
with the attribute assigned destroys the current handle and stores None,
after which a second teardown issues a further native encoderDestroy call
on the cleared handle (still raising no error). -/
theorem c3_teardown_amended (e : Encoder) :
    (e._state = Option.none → Encoder.del e = (e, [])) ∧
    (∀ h, e._state = some h →
      Encoder.del e =
        ({ e with _state := some Option.none },
         [NativeCall.encoderDestroy h]) ∧
      (Encoder.del (Encoder.del e).1).2 =
        [NativeCall.encoderDestroy Option.none]) := by
  constructor
  · intro hn
    simp [Encoder.del, hn]
  · intro h hs
    constructor
    · simp [Encoder.del, hs]
    · simp [Encoder.del, hs]

/-- Witness for the amended C3 on the never-Ready and the Ready Encoder. -/
theorem c3_teardown_amended_witness :
    Encoder.del uninitEncoder = (uninitEncoder, []) ∧
    Encoder.del readyEncoder =
      ({ readyEncoder with _state := some Option.none },
       [NativeCall.encoderDestroy (some 1)]) ∧
    (Encoder.del (Encoder.del readyEncoder).1).2 =
      [NativeCall.encoderDestroy Option.none] :=
  ⟨(c3_teardown_amended uninitEncoder).1 rfl,
   ((c3_teardown_amended readyEncoder).2 (some 1) rfl).1,
   ((c3_teardown_amended readyEncoder).2 (some 1) rfl).2⟩

/-- Counterexample to claim C4: encode after teardown does not raise a
closed-state error; it issues the native encode call with the cleared
handle, and when the native status is negative it raises OpusError, the
very error kind the claim rules out. -/
theorem c4_counterexample :
    (Encoder.encode failLib closedEncoder [0, 0, 0, 0] 960).1 =
      Except.error (PyExn.opusError (-1) "invalid argument") ∧
    (Encoder.encode failLib closedEncoder [0, 0, 0, 0] 960).2.2 =
      [NativeCall.encode Option.none 960 4, NativeCall.strerror (-1)] :=
  ⟨rfl, rfl⟩

/-- Claim C4 as amended: encode on a closed Encoder performs the native
encode call with the cleared (null) handle; the code has no closed-state
check and no closed-state error, so any exception the call raises is the
OpusError built from a negative native status. -/
theorem c4_encode_after_close_amended (nl : NativeLib) (e : Encoder)
    (pcm : List Nat) (fs : Nat) (hc : e._state = some Option.none) :
    (Encoder.encode nl e pcm fs).2.2.head? =
      some (NativeCall.encode Option.none fs pcm.length) ∧
    (∀ exn, (Encoder.encode nl e pcm fs).1 = Except.error exn →
      exn =
        PyExn.opusError (nl.opus_encode Option.none pcm fs pcm.length).1
          (nl.opus_strerror (nl.opus_encode Option.none pcm fs pcm.length).1)
        ∧ (nl.opus_encode Option.none pcm fs pcm.length).1 < 0) := by
  simp only [Encoder.encode, hc]
  split
  · rename_i hlt
    refine ⟨rfl, ?_⟩
    intro exn hexn
    simp only [Except.error.injEq] at hexn
    exact ⟨hexn.symm, hlt⟩
  · refine ⟨rfl, ?_⟩
    intro exn hexn
    simp at hexn

/-- Witness for the amended C4 on the failing library. -/
theorem c4_encode_after_close_amended_witness :
    (Encoder.encode failLib closedEncoder [0, 0, 0, 0] 960).2.2.head? =
      some (NativeCall.encode Option.none 960 4) ∧
    (failLib.opus_encode Option.none [0, 0, 0, 0] 960 4).1 < 0 :=
  ⟨(c4_encode_after_close_amended failLib closedEncoder [0, 0, 0, 0] 960
      rfl).1,
   ((c4_encode_after_close_amended failLib closedEncoder [0, 0, 0, 0] 960
      rfl).2 (PyExn.opusError (-1) "invalid argument") rfl).2⟩

/-- Claim C6: when the loader fails, for a library that cannot be opened or
a missing required symbol, load_opus propagates the load error and the
process-wide binding keeps its prior value, so is_loaded is unchanged. -/
theorem c6_load_failure_preserves_state
    (dlopen : String → Except LoadExn NativeLib) (lib : Option NativeLib)
    (name : String) (e : LoadExn)
    (h : libopus_loader dlopen name = Except.error e) :
    load_opus dlopen lib name = (Except.error e, lib) ∧
    is_loaded (load_opus dlopen lib name).2 = is_loaded lib := by
  constructor
  · simp [load_opus, h]
  · simp [load_opus, h]

/-- Witness for C6: a nonexistent library name fails and leaves the absent
binding absent. -/
theorem c6_load_failure_preserves_state_witness :
    load_opus failDlopen Option.none "definitely-nonexistent-library-xyz" =
      (Except.error
        (LoadExn.osError "definitely-nonexistent-library-xyz"
          "cannot open shared object"), Option.none) ∧
    is_loaded
      (load_opus failDlopen Option.none
        "definitely-nonexistent-library-xyz").2 = is_loaded Option.none :=
  c6_load_failure_preserves_state failDlopen Option.none
    "definitely-nonexistent-library-xyz"
    (LoadExn.osError "definitely-nonexistent-library-xyz"
      "cannot open shared object") rfl

/-- Claim C8: Context.invoke has exactly two dispatch modes: with no
keyword arguments it runs the canonical entry point of the command on the
context itself, with any keyword arguments it runs the raw callback on
those arguments alone. -/
theorem c8_invoke_dispatch {Res : Type} (self : Context) (cmd : Command Res)
    (kwargs : List (String × PyVal)) :
    (kwargs = [] → Context.invoke self cmd kwargs = cmd.invoke self) ∧
    (kwargs ≠ [] → Context.invoke self cmd kwargs = cmd.callback kwargs) := by
  constructor
  · intro h
    subst h
    rfl
  · intro h
    simp [Context.invoke, List.length_eq_zero, h]

/-- Witness for C8 on a concrete context and command, in both modes. -/
theorem c8_invoke_dispatch_witness :
    Context.invoke testContext testCommand [] =
      testCommand.invoke testContext ∧
    Context.invoke testContext testCommand [("x", PyVal.int 1)] =
      testCommand.callback [("x", PyVal.int 1)] :=
  ⟨(c8_invoke_dispatch testContext testCommand []).1 rfl,
   (c8_invoke_dispatch testContext testCommand [("x", PyVal.int 1)]).2
     (List.cons_ne_nil _ _)⟩

/-- Looking a key up past a pair whose key differs is looking it up in the
tail. -/
theorem lookup_cons_of_ne {β : Type} (k key : String) (v : β)
    (attrs : List (String × β)) (h : key ≠ k) :
    List.lookup key ((k, v) :: attrs) = List.lookup key attrs := by
  have hb : (key == k) = false := beq_eq_false_iff_ne.mpr h
  simp [List.lookup, hb]

/-- Claim C10: Context construction requires the attribute named "prefix"
(construction without it raises KeyError), every other documented field
defaults when omitted (None, empty list or empty dict), and a keyword
outside the popped attribute keys changes nothing about the outcome. -/
theorem c10_context_init (attrs : List (String × PyVal)) (p : PyVal)
    (k : String) (v : PyVal) :
    (attrs.lookup "prefix" = Option.none →
      Context.init attrs = Except.error (PyExn.keyError "prefix")) ∧
    (Context.init [("prefix", p)] =
      Except.ok
        { message := PyVal.none, bot := PyVal.none, args := PyVal.list []
          kwargs := PyVal.dict [], pfx := p, command := PyVal.none
          view := PyVal.none, invoked_with := PyVal.none
          invoked_subcommand := PyVal.none
          subcommand_passed := PyVal.none }) ∧
    (k ∉ contextKnownKeys →
      Context.init ((k, v) :: attrs) = Context.init attrs) := by
  refine ⟨?_, ?_, ?_⟩
  · intro h
    simp [Context.init, h]
  · rfl
  · intro hk
    have hne : ∀ key, key ∈ contextKnownKeys → key ≠ k :=
      fun key hmem he => hk (he ▸ hmem)
    have e1 := lookup_cons_of_ne k "message" v attrs
      (hne _ (by simp [contextKnownKeys]))
    have e2 := lookup_cons_of_ne k "bot" v attrs
      (hne _ (by simp [contextKnownKeys]))
    have e3 := lookup_cons_of_ne k "args" v attrs
      (hne _ (by simp [contextKnownKeys]))
    have e4 := lookup_cons_of_ne k "kwargs" v attrs
      (hne _ (by simp [contextKnownKeys]))
    have e5 := lookup_cons_of_ne k "prefix" v attrs
      (hne _ (by simp [contextKnownKeys]))
    have e6 := lookup_cons_of_ne k "command" v attrs
      (hne _ (by simp [contextKnownKeys]))
    have e7 := lookup_cons_of_ne k "view" v attrs
      (hne _ (by simp [contextKnownKeys]))
    have e8 := lookup_cons_of_ne k "invoked_with" v attrs
      (hne _ (by simp [contextKnownKeys]))
    have e9 := lookup_cons_of_ne k "invoked_subcommand" v attrs
      (hne _ (by simp [contextKnownKeys]))
    have e10 := lookup_cons_of_ne k "subcommand_passed" v attrs
      (hne _ (by simp [contextKnownKeys]))
    simp only [Context.init, e1, e2, e3, e4, e5, e6, e7, e8, e9, e10]

/-- Witness for C10: omitting the prefix attribute raises KeyError, giving
only the prefix attribute fills every default, and an unknown keyword is
ignored. -/
theorem c10_context_init_witness :
    Context.init [("message", PyVal.obj 5)] =
      Except.error (PyExn.keyError "prefix") ∧
    Context.init [("prefix", PyVal.str "!")] =
      Except.ok
        { message := PyVal.none, bot := PyVal.none, args := PyVal.list []
          kwargs := PyVal.dict [], pfx := PyVal.str "!"
          command := PyVal.none, view := PyVal.none
          invoked_with := PyVal.none, invoked_subcommand := PyVal.none
          subcommand_passed := PyVal.none } ∧
    Context.init [("unknown_extra", PyVal.int 3), ("prefix", PyVal.str "!")]
      = Context.init [("prefix", PyVal.str "!")] :=
  ⟨(c10_context_init [("message", PyVal.obj 5)] PyVal.none "" PyVal.none).1
     rfl,
   (c10_context_init [] (PyVal.str "!") "" PyVal.none).2.1,
   (c10_context_init [("prefix", PyVal.str "!")] PyVal.none "unknown_extra"
      (PyVal.int 3)).2.2 (by simp [contextKnownKeys])⟩

end Theorems

end Discord
